import Mathlib

/-!
# Locksmith SDK — binary codec and PDA derivation, verified

A shallow embedding of the Locksmith TypeScript SDK (`sdk/src`): the
instruction-data and account codecs, the protocol constants
(`constants.ts`), and the PDA derivation helpers (`pdas.ts`).

The generated codec code (`sdk/src/generated`, produced by Codama) and the
address-derivation primitive (`getProgramDerivedAddress` of `@solana/kit`)
are not part of the repository sources available here; those parts are
modelled from the specification's layout and contract descriptions, and
cross-checked against the byte-level unit tests that are present in the
repository. Definitions carrying such a model say so in their doc comment.

Addresses are modelled by their byte value (a `List Nat` of bytes); the
base58 string presentation used by `@solana/kit` is handled by
`base58To32Bytes` where a concrete address constant is needed.
-/

set_option maxRecDepth 8192

deriving instance DecidableEq for Except

namespace Locksmith

/-- The `k` little-endian base-256 digits of `n` (least significant first). -/
def bytesLE : Nat → Nat → List Nat
  | 0, _ => []
  | k + 1, n => n % 256 :: bytesLE k (n / 256)

/-- Read a little-endian base-256 number from a byte list. -/
def readLE (b : List Nat) : Nat :=
  b.foldr (fun x acc => x + 256 * acc) 0

/-- The 8 little-endian bytes of an i64, two's complement. -/
def i64LE (i : Int) : List Nat :=
  bytesLE 8 (Int.toNat (i % 2 ^ 64))

/-- Read an i64 from 8 little-endian two's-complement bytes. -/
def readI64LE (b : List Nat) : Int :=
  let n := readLE b
  if n < 2 ^ 63 then (n : Int) else (n : Int) - 2 ^ 64

/-- Validity of a u64 field value. -/
abbrev u64Valid (n : Nat) : Prop := n < 2 ^ 64

/-- Validity of an i64 field value. -/
abbrev i64Valid (i : Int) : Prop := -2 ^ 63 ≤ i ∧ i < 2 ^ 63

/-- A well-formed 32-byte value (an address or public key, by its bytes). -/
abbrev bytes32 (b : List Nat) : Prop := b.length = 32 ∧ ∀ x ∈ b, x < 256

/-! ## Data model

The instruction-data and account record types of the SDK
(`sdk/src/generated`). Field widths follow the spec's data model: u64
fields are `Nat`, i64 fields are `Int`, 32-byte identities are byte
lists. -/

structure InitializeLockInstructionData where
  amount : Nat
  unlockTimestamp : Int
  lockId : Nat
deriving DecidableEq, Repr

structure UnlockInstructionData where
  lockId : Nat
deriving DecidableEq, Repr

structure ConfigAccount where
  discriminator : List Nat
  admin : List Nat
  bump : Nat
deriving DecidableEq, Repr

structure LockAccount where
  discriminator : List Nat
  owner : List Nat
  mint : List Nat
  amount : Nat
  unlockTimestamp : Int
  createdAt : Int
  lockId : Nat
  bump : Nat
deriving DecidableEq, Repr

/-- Decoding failure, per the spec's error taxonomy for the codec. -/
inductive DecodeError where
  | lengthMismatch
  | discriminatorMismatch
deriving DecidableEq, Repr

/-- A valid `InitializeLockInstructionData` value: all integer fields in
their declared domains. -/
abbrev InitializeLockInstructionData.Valid (d : InitializeLockInstructionData) : Prop :=
  u64Valid d.amount ∧ i64Valid d.unlockTimestamp ∧ u64Valid d.lockId

abbrev UnlockInstructionData.Valid (d : UnlockInstructionData) : Prop :=
  u64Valid d.lockId

/-! ## Protocol constants (`sdk/src/constants.ts`) -/

/-- USDC mint address (devnet), hardcoded in `constants.ts`. -/
def USDC_MINT : String := "4zMMC9srt5Ri5X14GAgXhaHii3GnPAEERYPJgZJDncDU"

/-- Fee amount: 0.15 USDC in base units (USDC has 6 decimals). -/
def FEE_USDC : Nat := 150000

/-- Maximum lock duration: 10 years in seconds, as computed in `constants.ts`. -/
def MAX_LOCK_DURATION_SECONDS : Nat := 10 * 365 * 24 * 60 * 60

/-- `ConfigAccount` discriminator bytes, ASCII `CONFIG` padded to 8 bytes. -/
def CONFIG_DISCRIMINATOR : List Nat := [67, 79, 78, 70, 73, 71, 0, 0]

/-- `LockAccount` discriminator bytes, ASCII `LOCK` padded to 8 bytes. -/
def LOCK_DISCRIMINATOR : List Nat := [76, 79, 67, 75, 0, 0, 0, 0]

def INITIALIZE_CONFIG_DISCRIMINATOR : Nat := 0
def TRANSFER_ADMIN_DISCRIMINATOR : Nat := 1
def WITHDRAW_FEES_DISCRIMINATOR : Nat := 2
def INITIALIZE_LOCK_DISCRIMINATOR : Nat := 3
def UNLOCK_DISCRIMINATOR : Nat := 4

/-! ## Instruction-data codec

Modelled from the spec: the Codama-generated instruction-data codecs
(`sdk/src/generated`) are not among the available sources. The layout is
taken from the spec's wire-format table (one leading tag byte, then the
little-endian fixed fields) and agrees with the byte-level expectations in
the SDK's instruction tests. -/

/-- Modelled from the spec: `getInitializeLockInstructionDataEncoder` of the
generated SDK. Tag byte 3, then amount (u64 LE), unlockTimestamp (i64 LE),
lockId (u64 LE). -/
def getInitializeLockInstructionDataEncoder (d : InitializeLockInstructionData) : List Nat :=
  INITIALIZE_LOCK_DISCRIMINATOR ::
    (bytesLE 8 d.amount ++ i64LE d.unlockTimestamp ++ bytesLE 8 d.lockId)

/-- Modelled from the spec: `getUnlockInstructionDataEncoder` of the
generated SDK. Tag byte 4, then lockId (u64 LE). -/
def getUnlockInstructionDataEncoder (d : UnlockInstructionData) : List Nat :=
  UNLOCK_DISCRIMINATOR :: bytesLE 8 d.lockId

/-- Modelled from the spec: `getInitializeConfigInstructionDataEncoder` of
the generated SDK. Tag byte 0, empty payload. -/
def getInitializeConfigInstructionDataEncoder : List Nat :=
  [INITIALIZE_CONFIG_DISCRIMINATOR]

/-- Modelled from the spec: `getTransferAdminInstructionDataEncoder` of the
generated SDK. Tag byte 1, empty payload. -/
def getTransferAdminInstructionDataEncoder : List Nat :=
  [TRANSFER_ADMIN_DISCRIMINATOR]

/-- Modelled from the spec: `getWithdrawFeesInstructionDataEncoder` of the
generated SDK. Tag byte 2, empty payload. -/
def getWithdrawFeesInstructionDataEncoder : List Nat :=
  [WITHDRAW_FEES_DISCRIMINATOR]

/-- Modelled from the spec: `getInitializeLockInstructionDataDecoder` of the
generated SDK. Exact length 25, tag byte 3, then the three LE fields. -/
def getInitializeLockInstructionDataDecoder (b : List Nat) :
    Except DecodeError InitializeLockInstructionData :=
  if b.length ≠ 25 then .error .lengthMismatch
  else if b.take 1 ≠ [INITIALIZE_LOCK_DISCRIMINATOR] then .error .discriminatorMismatch
  else .ok { amount := readLE ((b.drop 1).take 8),
             unlockTimestamp := readI64LE ((b.drop 9).take 8),
             lockId := readLE ((b.drop 17).take 8) }

/-- Modelled from the spec: `getUnlockInstructionDataDecoder` of the
generated SDK. Exact length 9, tag byte 4, then lockId (u64 LE). -/
def getUnlockInstructionDataDecoder (b : List Nat) :
    Except DecodeError UnlockInstructionData :=
  if b.length ≠ 9 then .error .lengthMismatch
  else if b.take 1 ≠ [UNLOCK_DISCRIMINATOR] then .error .discriminatorMismatch
  else .ok { lockId := readLE ((b.drop 1).take 8) }

/-- Modelled from the spec: decoder of the payload-less InitializeConfig
instruction data. Exact length 1, tag byte 0. -/
def getInitializeConfigInstructionDataDecoder (b : List Nat) :
    Except DecodeError Unit :=
  if b.length ≠ 1 then .error .lengthMismatch
  else if b.take 1 ≠ [INITIALIZE_CONFIG_DISCRIMINATOR] then .error .discriminatorMismatch
  else .ok ()

/-- Modelled from the spec: decoder of the payload-less TransferAdmin
instruction data. Exact length 1, tag byte 1. -/
def getTransferAdminInstructionDataDecoder (b : List Nat) :
    Except DecodeError Unit :=
  if b.length ≠ 1 then .error .lengthMismatch
  else if b.take 1 ≠ [TRANSFER_ADMIN_DISCRIMINATOR] then .error .discriminatorMismatch
  else .ok ()

/-- Modelled from the spec: decoder of the payload-less WithdrawFees
instruction data. Exact length 1, tag byte 2. -/
def getWithdrawFeesInstructionDataDecoder (b : List Nat) :
    Except DecodeError Unit :=
  if b.length ≠ 1 then .error .lengthMismatch
  else if b.take 1 ≠ [WITHDRAW_FEES_DISCRIMINATOR] then .error .discriminatorMismatch
  else .ok ()

/-! ## Account codec -/

def getConfigAccountSize : Nat := 41
def getLockAccountSize : Nat := 105

/-- Modelled from the spec: `getConfigAccountEncoder` of the generated SDK.
8-byte constant discriminator, 32-byte admin, 1-byte bump. -/
def getConfigAccountEncoder (c : ConfigAccount) : List Nat :=
  CONFIG_DISCRIMINATOR ++ c.admin ++ [c.bump]

/-- Modelled from the spec: `getLockAccountEncoder` of the generated SDK.
8-byte constant discriminator, owner, mint, amount (u64 LE),
unlockTimestamp (i64 LE), createdAt (i64 LE), lockId (u64 LE), bump. -/
def getLockAccountEncoder (l : LockAccount) : List Nat :=
  LOCK_DISCRIMINATOR ++ l.owner ++ l.mint ++ bytesLE 8 l.amount ++
    i64LE l.unlockTimestamp ++ i64LE l.createdAt ++ bytesLE 8 l.lockId ++ [l.bump]

/-- Modelled from the spec: `getConfigAccountDecoder` of the generated SDK.
Exact length 41, discriminator check, then the fields at their offsets. -/
def getConfigAccountDecoder (b : List Nat) : Except DecodeError ConfigAccount :=
  if b.length ≠ getConfigAccountSize then .error .lengthMismatch
  else if b.take 8 ≠ CONFIG_DISCRIMINATOR then .error .discriminatorMismatch
  else .ok { discriminator := b.take 8,
             admin := (b.drop 8).take 32,
             bump := (b.drop 40).headD 0 }

/-- Modelled from the spec: `getLockAccountDecoder` of the generated SDK.
Exact length 105, discriminator check, then the fields at their offsets.
The field values are returned verbatim; no semantic validation occurs. -/
def getLockAccountDecoder (b : List Nat) : Except DecodeError LockAccount :=
  if b.length ≠ getLockAccountSize then .error .lengthMismatch
  else if b.take 8 ≠ LOCK_DISCRIMINATOR then .error .discriminatorMismatch
  else .ok { discriminator := b.take 8,
             owner := (b.drop 8).take 32,
             mint := (b.drop 40).take 32,
             amount := readLE ((b.drop 72).take 8),
             unlockTimestamp := readI64LE ((b.drop 80).take 8),
             createdAt := readI64LE ((b.drop 88).take 8),
             lockId := readLE ((b.drop 96).take 8),
             bump := (b.drop 104).headD 0 }

/-- A valid `ConfigAccount` value: the constant discriminator, a 32-byte
admin, a one-byte bump. -/
abbrev ConfigAccount.Valid (c : ConfigAccount) : Prop :=
  c.discriminator = CONFIG_DISCRIMINATOR ∧ c.admin.length = 32 ∧ c.bump < 256

/-- A valid `LockAccount` value, in the codec's sense: the constant
discriminator, 32-byte owner and mint, integer fields in their declared
domains, a one-byte bump. (No semantic lock invariants are part of this.) -/
abbrev LockAccount.Valid (l : LockAccount) : Prop :=
  l.discriminator = LOCK_DISCRIMINATOR ∧ l.owner.length = 32 ∧ l.mint.length = 32 ∧
    u64Valid l.amount ∧ i64Valid l.unlockTimestamp ∧ i64Valid l.createdAt ∧
    u64Valid l.lockId ∧ l.bump < 256

/-! ## Addresses and PDA derivation (`sdk/src/pdas.ts`)

Addresses are carried as their 32-byte value. Seed constants are the
UTF-8 bytes of the ASCII seed strings, as produced by `TextEncoder` in
`pdas.ts`. -/

/-- The byte values of an ASCII string (UTF-8 of ASCII is the code points). -/
def asciiBytes (s : String) : List Nat := s.toList.map Char.toNat

/-- The base58 alphabet used by Solana addresses. -/
def base58Alphabet : List Char :=
  "123456789ABCDEFGHJKLMNPQRSTUVWXYZabcdefghijkmnopqrstuvwxyz".toList

/-- The numeric value of a base58 string. -/
def base58Nat (s : String) : Nat :=
  s.toList.foldl (fun acc c => acc * 58 + base58Alphabet.indexOf c) 0

/-- The 32-byte value of a base58-encoded 32-byte address. -/
def base58To32Bytes (s : String) : List Nat :=
  (bytesLE 32 (base58Nat s)).reverse

/-- The deployed locksmith program address, from the generated SDK. -/
def LOCKSMITH_PROGRAM_ADDRESS : List Nat :=
  base58To32Bytes "A5vz72a5ipKUJZxmGUjGtS7uhWfzr6jhDgV2q73YhD8A"

/-- The SPL token program address (the ledger's token-transfer service). -/
def TOKEN_PROGRAM_ADDRESS : List Nat :=
  base58To32Bytes "TokenkegQfeZyiNwAJbNbGKPFXCWuBvf9Ss623VQ5DA"

/-- The system program address (the ledger's account allocator). -/
def SYSTEM_PROGRAM_ADDRESS : List Nat :=
  base58To32Bytes "11111111111111111111111111111111"

def CONFIG_SEED : List Nat := asciiBytes "config"
def FEE_VAULT_SEED : List Nat := asciiBytes "fee_vault"
def LOCK_SEED : List Nat := asciiBytes "lock"
def LOCK_TOKEN_SEED : List Nat := asciiBytes "lock_token"

/-- Modelled from the spec: `getProgramDerivedAddress` of `@solana/kit`
(external to the repository). The spec's derivation-engine contract: the
result is a pure function of the program address and the seed list; the
address depends injectively on the concatenated seed bytes (distinct
concatenations collide only with cryptographically negligible
probability, which the model renders as injectivity); the bump is a byte
found probing from 255 downward, modelled as the first probe. The model
address is the program address followed by the seed concatenation. -/
def getProgramDerivedAddress (programAddress : List Nat) (seeds : List (List Nat)) :
    List Nat × Nat :=
  (programAddress ++ seeds.flatten, 255)

/-- Modelled from the spec: `getAddressEncoder().encode` of `@solana/kit`;
addresses are already carried as their byte value here. -/
def getAddressEncoder (a : List Nat) : List Nat := a

/-- A JavaScript number that holds an integer value, as a binary float
mantissa/exponent pair (value = mantissa * 2 ^ exponent). -/
structure JsNumber where
  mantissa : Int
  exponent : Nat
deriving DecidableEq, Repr

/-- A `bigint | number` argument at the SDK's public interface. -/
inductive JsIntArg where
  | num (x : JsNumber)
  | big (v : Int)
deriving DecidableEq, Repr

/-- Modelled from JS semantics: the `BigInt(...)` conversion applied by the
SDK to `bigint | number` arguments. On a bigint it is the identity; on a
number holding an integer value it yields exactly that integer. -/
def JsIntArg.toBigInt : JsIntArg → Int
  | .num x => x.mantissa * 2 ^ x.exponent
  | .big v => v

/-- `x` is the JS number exactly representing the integer `v`: the mantissa
fits in the 53-bit significand and the scaled value is `v`. -/
abbrev jsExactInt (v : Int) (x : JsNumber) : Prop :=
  x.mantissa.natAbs ≤ 2 ^ 53 ∧ v = x.mantissa * 2 ^ x.exponent

/-- `findConfigPda` of `pdas.ts`: seeds `["config"]`. The program address
is an explicit argument; `pdas.ts` defaults it to
`LOCKSMITH_PROGRAM_ADDRESS`. -/
def findConfigPda (programAddress : List Nat) : List Nat × Nat :=
  getProgramDerivedAddress programAddress [CONFIG_SEED]

/-- `findFeeVaultPda` of `pdas.ts`: seeds `["fee_vault"]`. -/
def findFeeVaultPda (programAddress : List Nat) : List Nat × Nat :=
  getProgramDerivedAddress programAddress [FEE_VAULT_SEED]

/-- `findLockAccountPda` of `pdas.ts`: seeds
`["lock", owner, mint, lockId as 8 LE bytes]`, with the
`bigint | number` lockId normalized through `BigInt`. -/
def findLockAccountPda (owner mint : List Nat) (lockId : JsIntArg)
    (programAddress : List Nat) : List Nat × Nat :=
  getProgramDerivedAddress programAddress
    [LOCK_SEED, getAddressEncoder owner, getAddressEncoder mint,
     bytesLE 8 lockId.toBigInt.toNat]

/-- `findLockTokenPda` of `pdas.ts`: seeds `["lock_token", lockAccount]`. -/
def findLockTokenPda (lockAccount : List Nat) (programAddress : List Nat) :
    List Nat × Nat :=
  getProgramDerivedAddress programAddress [LOCK_TOKEN_SEED, getAddressEncoder lockAccount]

/-! ## Instruction builders -/

/-- A built instruction: program address, ordered account addresses, data. -/
structure Instruction where
  programAddress : List Nat
  accounts : List (List Nat)
  data : List Nat
deriving DecidableEq, Repr

/-- Modelled from the spec and the SDK account tests:
`getWithdrawFeesInstruction` of the generated SDK. Tag byte 2, empty
payload; the ordered accounts are admin (signer), config, feeVault,
destination, plus the token program — the SDK test pins
`accounts.length` to 5. -/
def getWithdrawFeesInstruction (admin config feeVault destination : List Nat) :
    Instruction :=
  { programAddress := LOCKSMITH_PROGRAM_ADDRESS,
    accounts := [admin, config, feeVault, destination, TOKEN_PROGRAM_ADDRESS],
    data := getWithdrawFeesInstructionDataEncoder }

/-- Modelled from the spec and the SDK tests:
`getInitializeLockInstruction` of the generated SDK. The seven named
accounts in order, plus the token and system programs (the SDK test pins
`accounts.length` to 9); the data is the InitializeLock instruction data
with the `bigint | number` fields normalized through `BigInt`. -/
def getInitializeLockInstruction
    (owner ownerTokenAccount ownerUsdcAccount mint lockAccount lockTokenAccount
      feeVault : List Nat) (amount unlockTimestamp lockId : JsIntArg) : Instruction :=
  { programAddress := LOCKSMITH_PROGRAM_ADDRESS,
    accounts := [owner, ownerTokenAccount, ownerUsdcAccount, mint, lockAccount,
                 lockTokenAccount, feeVault, TOKEN_PROGRAM_ADDRESS,
                 SYSTEM_PROGRAM_ADDRESS],
    data := getInitializeLockInstructionDataEncoder
      { amount := amount.toBigInt.toNat,
        unlockTimestamp := unlockTimestamp.toBigInt,
        lockId := lockId.toBigInt.toNat } }

/-! ## Byte-level lemmas -/

theorem bytesLE_length (k n : Nat) : (bytesLE k n).length = k := by
  induction k generalizing n with
  | zero => rfl
  | succ k ih => simp [bytesLE, ih]

theorem readLE_bytesLE (k n : Nat) : readLE (bytesLE k n) = n % 256 ^ k := by
  induction k generalizing n with
  | zero => simp [bytesLE, readLE, Nat.mod_one]
  | succ k ih =>
      simp only [bytesLE, readLE, List.foldr] at *
      rw [ih]
      calc n % 256 + 256 * (n / 256 % 256 ^ k)
          = n % (256 * 256 ^ k) := Nat.mod_mul.symm
        _ = n % 256 ^ (k + 1) := by rw [← pow_succ']

theorem readLE_bytesLE_of_lt {k n : Nat} (h : n < 256 ^ k) :
    readLE (bytesLE k n) = n := by
  rw [readLE_bytesLE, Nat.mod_eq_of_lt h]

theorem bytesLE_injOn {k m n : Nat} (hm : m < 256 ^ k) (hn : n < 256 ^ k)
    (h : bytesLE k m = bytesLE k n) : m = n := by
  have := congrArg readLE h
  rwa [readLE_bytesLE_of_lt hm, readLE_bytesLE_of_lt hn] at this

theorem i64LE_length (i : Int) : (i64LE i).length = 8 :=
  bytesLE_length 8 _

theorem readI64LE_i64LE {i : Int} (h : i64Valid i) : readI64LE (i64LE i) = i := by
  have hnonneg : 0 ≤ i % 2 ^ 64 := Int.emod_nonneg i (by norm_num)
  have hlt : i % 2 ^ 64 < 2 ^ 64 := Int.emod_lt_of_pos i (by norm_num)
  have hn : (Int.toNat (i % 2 ^ 64) : Int) = i % 2 ^ 64 := Int.toNat_of_nonneg hnonneg
  have hnlt : Int.toNat (i % 2 ^ 64) < 256 ^ 8 := by
    have : (256 : Nat) ^ 8 = 2 ^ 64 := by norm_num
    omega
  unfold i64LE readI64LE
  rw [readLE_bytesLE_of_lt hnlt]
  obtain ⟨h1, h2⟩ := h
  simp only []
  split <;> omega

/-! ## Codec round-trip lemmas -/

theorem initializeLock_encode_length (d : InitializeLockInstructionData) :
    (getInitializeLockInstructionDataEncoder d).length = 25 := by
  simp [getInitializeLockInstructionDataEncoder, bytesLE_length, i64LE_length]

theorem unlock_encode_length (d : UnlockInstructionData) :
    (getUnlockInstructionDataEncoder d).length = 9 := by
  simp [getUnlockInstructionDataEncoder, bytesLE_length]

theorem initializeLock_roundtrip {d : InitializeLockInstructionData} (h : d.Valid) :
    getInitializeLockInstructionDataDecoder (getInitializeLockInstructionDataEncoder d)
      = .ok d := by
  obtain ⟨am, ts, li⟩ := d
  obtain ⟨h1, h2, h3⟩ := h
  have hlen := initializeLock_encode_length ⟨am, ts, li⟩
  have htake1 : (getInitializeLockInstructionDataEncoder ⟨am, ts, li⟩).take 1 = [3] := rfl
  have hdrop1 : (getInitializeLockInstructionDataEncoder ⟨am, ts, li⟩).drop 1
      = bytesLE 8 am ++ (i64LE ts ++ bytesLE 8 li) := rfl
  have ham : ((getInitializeLockInstructionDataEncoder ⟨am, ts, li⟩).drop 1).take 8
      = bytesLE 8 am := by
    rw [hdrop1]; exact List.take_left' (bytesLE_length 8 am)
  have hdrop9 : (getInitializeLockInstructionDataEncoder ⟨am, ts, li⟩).drop 9
      = i64LE ts ++ bytesLE 8 li := by
    rw [← List.drop_drop 8 1, hdrop1, List.drop_left' (bytesLE_length 8 am)]
  have hts : ((getInitializeLockInstructionDataEncoder ⟨am, ts, li⟩).drop 9).take 8
      = i64LE ts := by
    rw [hdrop9]; exact List.take_left' (i64LE_length ts)
  have hdrop17 : (getInitializeLockInstructionDataEncoder ⟨am, ts, li⟩).drop 17
      = bytesLE 8 li := by
    rw [← List.drop_drop 8 9, hdrop9, List.drop_left' (i64LE_length ts)]
  have hli : ((getInitializeLockInstructionDataEncoder ⟨am, ts, li⟩).drop 17).take 8
      = bytesLE 8 li := by
    rw [hdrop17]; exact List.take_of_length_le (by rw [bytesLE_length])
  have h1' : am < 256 ^ 8 := by norm_num at h1 ⊢; exact h1
  have h3' : li < 256 ^ 8 := by norm_num at h3 ⊢; exact h3
  unfold getInitializeLockInstructionDataDecoder
  rw [if_neg (by simp [hlen]), if_neg (by simp [htake1, INITIALIZE_LOCK_DISCRIMINATOR]),
      ham, hts, hli, readLE_bytesLE_of_lt h1', readLE_bytesLE_of_lt h3',
      readI64LE_i64LE h2]

theorem unlock_roundtrip {d : UnlockInstructionData} (h : d.Valid) :
    getUnlockInstructionDataDecoder (getUnlockInstructionDataEncoder d) = .ok d := by
  obtain ⟨li⟩ := d
  have hlen := unlock_encode_length ⟨li⟩
  have htake1 : (getUnlockInstructionDataEncoder ⟨li⟩).take 1 = [4] := rfl
  have hdrop1 : (getUnlockInstructionDataEncoder ⟨li⟩).drop 1 = bytesLE 8 li := rfl
  have hli : ((getUnlockInstructionDataEncoder ⟨li⟩).drop 1).take 8 = bytesLE 8 li := by
    rw [hdrop1]; exact List.take_of_length_le (by rw [bytesLE_length])
  have h' : li < 256 ^ 8 := by norm_num at h ⊢; exact h
  unfold getUnlockInstructionDataDecoder
  rw [if_neg (by simp [hlen]), if_neg (by simp [htake1, UNLOCK_DISCRIMINATOR]),
      hli, readLE_bytesLE_of_lt h']

theorem initializeConfig_roundtrip :
    getInitializeConfigInstructionDataDecoder getInitializeConfigInstructionDataEncoder
      = .ok () := rfl

theorem transferAdmin_roundtrip :
    getTransferAdminInstructionDataDecoder getTransferAdminInstructionDataEncoder
      = .ok () := rfl

theorem withdrawFees_roundtrip :
    getWithdrawFeesInstructionDataDecoder getWithdrawFeesInstructionDataEncoder
      = .ok () := rfl

theorem configAccount_encode_length {c : ConfigAccount} (h : c.admin.length = 32) :
    (getConfigAccountEncoder c).length = 41 := by
  simp [getConfigAccountEncoder, CONFIG_DISCRIMINATOR, h]

theorem lockAccount_encode_length {l : LockAccount}
    (ho : l.owner.length = 32) (hm : l.mint.length = 32) :
    (getLockAccountEncoder l).length = 105 := by
  simp [getLockAccountEncoder, LOCK_DISCRIMINATOR, ho, hm, bytesLE_length, i64LE_length]

theorem configAccount_roundtrip {c : ConfigAccount} (h : c.Valid) :
    getConfigAccountDecoder (getConfigAccountEncoder c) = .ok c := by
  obtain ⟨d, a, bp⟩ := c
  obtain ⟨hd, ha, hb⟩ := h
  have hlen := configAccount_encode_length (c := ⟨d, a, bp⟩) ha
  have henc : getConfigAccountEncoder ⟨d, a, bp⟩
      = CONFIG_DISCRIMINATOR ++ (a ++ [bp]) := rfl
  have hdisc : (getConfigAccountEncoder ⟨d, a, bp⟩).take 8 = CONFIG_DISCRIMINATOR := by
    rw [henc]; exact List.take_left' rfl
  have hdrop8 : (getConfigAccountEncoder ⟨d, a, bp⟩).drop 8 = a ++ [bp] := by
    rw [henc]; exact List.drop_left' rfl
  have hadmin : ((getConfigAccountEncoder ⟨d, a, bp⟩).drop 8).take 32 = a := by
    rw [hdrop8]; exact List.take_left' ha
  have hdrop40 : (getConfigAccountEncoder ⟨d, a, bp⟩).drop 40 = [bp] := by
    rw [← List.drop_drop 32 8, hdrop8, List.drop_left' ha]
  unfold getConfigAccountDecoder
  rw [if_neg (by simp [hlen, getConfigAccountSize]), if_neg (by simp [hdisc]),
      hdisc, hadmin, hdrop40]
  simp only at hd
  rw [hd]
  rfl

theorem lockAccount_roundtrip {l : LockAccount} (h : l.Valid) :
    getLockAccountDecoder (getLockAccountEncoder l) = .ok l := by
  obtain ⟨d, ow, mi, am, ts, ca, li, bp⟩ := l
  obtain ⟨hd, ho, hm, h1, h2, h3, h4, h5⟩ := h
  have hlen := lockAccount_encode_length (l := ⟨d, ow, mi, am, ts, ca, li, bp⟩) ho hm
  have henc : getLockAccountEncoder ⟨d, ow, mi, am, ts, ca, li, bp⟩
      = LOCK_DISCRIMINATOR ++
          (ow ++ (mi ++ (bytesLE 8 am ++ (i64LE ts ++ (i64LE ca ++ (bytesLE 8 li ++ [bp]))))))
      := by simp [getLockAccountEncoder, List.append_assoc]
  have hdisc : (getLockAccountEncoder ⟨d, ow, mi, am, ts, ca, li, bp⟩).take 8
      = LOCK_DISCRIMINATOR := by rw [henc]; exact List.take_left' rfl
  have hdrop8 : (getLockAccountEncoder ⟨d, ow, mi, am, ts, ca, li, bp⟩).drop 8
      = ow ++ (mi ++ (bytesLE 8 am ++ (i64LE ts ++ (i64LE ca ++ (bytesLE 8 li ++ [bp])))))
      := by rw [henc]; exact List.drop_left' rfl
  have howner : ((getLockAccountEncoder ⟨d, ow, mi, am, ts, ca, li, bp⟩).drop 8).take 32
      = ow := by rw [hdrop8]; exact List.take_left' ho
  have hdrop40 : (getLockAccountEncoder ⟨d, ow, mi, am, ts, ca, li, bp⟩).drop 40
      = mi ++ (bytesLE 8 am ++ (i64LE ts ++ (i64LE ca ++ (bytesLE 8 li ++ [bp])))) := by
    rw [← List.drop_drop 32 8, hdrop8, List.drop_left' ho]
  have hmint : ((getLockAccountEncoder ⟨d, ow, mi, am, ts, ca, li, bp⟩).drop 40).take 32
      = mi := by rw [hdrop40]; exact List.take_left' hm
  have hdrop72 : (getLockAccountEncoder ⟨d, ow, mi, am, ts, ca, li, bp⟩).drop 72
      = bytesLE 8 am ++ (i64LE ts ++ (i64LE ca ++ (bytesLE 8 li ++ [bp]))) := by
    rw [← List.drop_drop 32 40, hdrop40, List.drop_left' hm]
  have hamount : ((getLockAccountEncoder ⟨d, ow, mi, am, ts, ca, li, bp⟩).drop 72).take 8
      = bytesLE 8 am := by rw [hdrop72]; exact List.take_left' (bytesLE_length 8 am)
  have hdrop80 : (getLockAccountEncoder ⟨d, ow, mi, am, ts, ca, li, bp⟩).drop 80
      = i64LE ts ++ (i64LE ca ++ (bytesLE 8 li ++ [bp])) := by
    rw [← List.drop_drop 8 72, hdrop72, List.drop_left' (bytesLE_length 8 am)]
  have hts : ((getLockAccountEncoder ⟨d, ow, mi, am, ts, ca, li, bp⟩).drop 80).take 8
      = i64LE ts := by rw [hdrop80]; exact List.take_left' (i64LE_length ts)
  have hdrop88 : (getLockAccountEncoder ⟨d, ow, mi, am, ts, ca, li, bp⟩).drop 88
      = i64LE ca ++ (bytesLE 8 li ++ [bp]) := by
    rw [← List.drop_drop 8 80, hdrop80, List.drop_left' (i64LE_length ts)]
  have hca : ((getLockAccountEncoder ⟨d, ow, mi, am, ts, ca, li, bp⟩).drop 88).take 8
      = i64LE ca := by rw [hdrop88]; exact List.take_left' (i64LE_length ca)
  have hdrop96 : (getLockAccountEncoder ⟨d, ow, mi, am, ts, ca, li, bp⟩).drop 96
      = bytesLE 8 li ++ [bp] := by
    rw [← List.drop_drop 8 88, hdrop88, List.drop_left' (i64LE_length ca)]
  have hli : ((getLockAccountEncoder ⟨d, ow, mi, am, ts, ca, li, bp⟩).drop 96).take 8
      = bytesLE 8 li := by rw [hdrop96]; exact List.take_left' (bytesLE_length 8 li)
  have hdrop104 : (getLockAccountEncoder ⟨d, ow, mi, am, ts, ca, li, bp⟩).drop 104
      = [bp] := by
    rw [← List.drop_drop 8 96, hdrop96, List.drop_left' (bytesLE_length 8 li)]
  have h1' : am < 256 ^ 8 := by norm_num at h1 ⊢; exact h1
  have h4' : li < 256 ^ 8 := by norm_num at h4 ⊢; exact h4
  unfold getLockAccountDecoder
  rw [if_neg (by simp [hlen, getLockAccountSize]), if_neg (by simp [hdisc]),
      hdisc, howner, hmint, hamount, hts, hca, hli, hdrop104,
      readLE_bytesLE_of_lt h1', readLE_bytesLE_of_lt h4',
      readI64LE_i64LE h2, readI64LE_i64LE h3]
  simp only at hd
  rw [hd]
  rfl

/-- Any 105-byte buffer carrying the LOCK discriminator decodes
successfully: the decoder has no semantic checks. -/
theorem lockAccountDecoder_ok_of {b : List Nat} (h1 : b.length = 105)
    (h2 : b.take 8 = LOCK_DISCRIMINATOR) : (getLockAccountDecoder b).isOk := by
  unfold getLockAccountDecoder
  rw [if_neg (by simp [h1, getLockAccountSize]), if_neg (by simp [h2])]
  rfl

/-! ## PDA derivation lemmas -/

theorem CONFIG_SEED_bytes : CONFIG_SEED = [99, 111, 110, 102, 105, 103] := by decide

theorem FEE_VAULT_SEED_bytes :
    FEE_VAULT_SEED = [102, 101, 101, 95, 118, 97, 117, 108, 116] := by decide

theorem LOCK_SEED_bytes : LOCK_SEED = [108, 111, 99, 107] := by decide

theorem LOCK_TOKEN_SEED_bytes :
    LOCK_TOKEN_SEED = [108, 111, 99, 107, 95, 116, 111, 107, 101, 110] := by decide

theorem findLockAccountPda_addr (owner mint : List Nat) (id : Nat) (prog : List Nat) :
    (findLockAccountPda owner mint (.big id) prog).1
      = prog ++ (LOCK_SEED ++ (owner ++ (mint ++ bytesLE 8 id))) := by
  simp [findLockAccountPda, getProgramDerivedAddress, getAddressEncoder,
        JsIntArg.toBigInt]

theorem lockPda_ne_of_owner_ne {owner owner2 : List Nat} (mint : List Nat) (id : Nat)
    (prog : List Nat) (h1 : owner.length = 32) (h2 : owner2.length = 32)
    (hne : owner ≠ owner2) :
    (findLockAccountPda owner mint (.big id) prog).1
      ≠ (findLockAccountPda owner2 mint (.big id) prog).1 := by
  intro heq
  rw [findLockAccountPda_addr, findLockAccountPda_addr] at heq
  have e1 := List.append_cancel_left heq
  have e2 := List.append_cancel_left e1
  exact hne (List.append_inj e2 (h1.trans h2.symm)).1

theorem lockPda_ne_of_mint_ne (owner : List Nat) {mint mint2 : List Nat} (id : Nat)
    (prog : List Nat) (h1 : mint.length = 32) (h2 : mint2.length = 32)
    (hne : mint ≠ mint2) :
    (findLockAccountPda owner mint (.big id) prog).1
      ≠ (findLockAccountPda owner mint2 (.big id) prog).1 := by
  intro heq
  rw [findLockAccountPda_addr, findLockAccountPda_addr] at heq
  have e1 := List.append_cancel_left heq
  have e2 := List.append_cancel_left e1
  have e3 := List.append_cancel_left e2
  exact hne (List.append_inj e3 (h1.trans h2.symm)).1

theorem lockPda_ne_of_id_ne (owner mint : List Nat) {id id2 : Nat}
    (prog : List Nat) (h1 : id < 2 ^ 64) (h2 : id2 < 2 ^ 64) (hne : id ≠ id2) :
    (findLockAccountPda owner mint (.big id) prog).1
      ≠ (findLockAccountPda owner mint (.big id2) prog).1 := by
  intro heq
  rw [findLockAccountPda_addr, findLockAccountPda_addr] at heq
  have e1 := List.append_cancel_left heq
  have e2 := List.append_cancel_left e1
  have e3 := List.append_cancel_left e2
  have e4 := List.append_cancel_left e3
  have h1' : id < 256 ^ 8 := by norm_num at h1 ⊢; exact h1
  have h2' : id2 < 256 ^ 8 := by norm_num at h2 ⊢; exact h2
  exact hne (bytesLE_injOn h1' h2' e4)

/-! ## Encoded-buffer slice lemmas -/

theorem initializeLock_encode_slices (d : InitializeLockInstructionData) :
    (getInitializeLockInstructionDataEncoder d).take 1 = [3] ∧
    ((getInitializeLockInstructionDataEncoder d).drop 1).take 8 = bytesLE 8 d.amount ∧
    ((getInitializeLockInstructionDataEncoder d).drop 9).take 8
      = i64LE d.unlockTimestamp ∧
    (getInitializeLockInstructionDataEncoder d).drop 17 = bytesLE 8 d.lockId := by
  obtain ⟨am, ts, li⟩ := d
  have hdrop1 : (getInitializeLockInstructionDataEncoder ⟨am, ts, li⟩).drop 1
      = bytesLE 8 am ++ (i64LE ts ++ bytesLE 8 li) := rfl
  have ham : ((getInitializeLockInstructionDataEncoder ⟨am, ts, li⟩).drop 1).take 8
      = bytesLE 8 am := by
    rw [hdrop1]; exact List.take_left' (bytesLE_length 8 am)
  have hdrop9 : (getInitializeLockInstructionDataEncoder ⟨am, ts, li⟩).drop 9
      = i64LE ts ++ bytesLE 8 li := by
    rw [← List.drop_drop 8 1, hdrop1, List.drop_left' (bytesLE_length 8 am)]
  have hts : ((getInitializeLockInstructionDataEncoder ⟨am, ts, li⟩).drop 9).take 8
      = i64LE ts := by
    rw [hdrop9]; exact List.take_left' (i64LE_length ts)
  have hdrop17 : (getInitializeLockInstructionDataEncoder ⟨am, ts, li⟩).drop 17
      = bytesLE 8 li := by
    rw [← List.drop_drop 8 9, hdrop9, List.drop_left' (i64LE_length ts)]
  exact ⟨rfl, ham, hts, hdrop17⟩

theorem unlock_encode_slices (d : UnlockInstructionData) :
    (getUnlockInstructionDataEncoder d).take 1 = [4] ∧
    (getUnlockInstructionDataEncoder d).drop 1 = bytesLE 8 d.lockId := by
  obtain ⟨li⟩ := d
  exact ⟨rfl, rfl⟩

theorem configAccount_encode_slices {c : ConfigAccount} (h : c.admin.length = 32) :
    (getConfigAccountEncoder c).take 8 = CONFIG_DISCRIMINATOR ∧
    ((getConfigAccountEncoder c).drop 8).take 32 = c.admin ∧
    (getConfigAccountEncoder c).drop 40 = [c.bump] := by
  obtain ⟨d, a, bp⟩ := c
  simp only at h
  have henc : getConfigAccountEncoder ⟨d, a, bp⟩
      = CONFIG_DISCRIMINATOR ++ (a ++ [bp]) := rfl
  have hdisc : (getConfigAccountEncoder ⟨d, a, bp⟩).take 8 = CONFIG_DISCRIMINATOR := by
    rw [henc]; exact List.take_left' rfl
  have hdrop8 : (getConfigAccountEncoder ⟨d, a, bp⟩).drop 8 = a ++ [bp] := by
    rw [henc]; exact List.drop_left' rfl
  have hadmin : ((getConfigAccountEncoder ⟨d, a, bp⟩).drop 8).take 32 = a := by
    rw [hdrop8]; exact List.take_left' h
  have hdrop40 : (getConfigAccountEncoder ⟨d, a, bp⟩).drop 40 = [bp] := by
    rw [← List.drop_drop 32 8, hdrop8, List.drop_left' h]
  exact ⟨hdisc, hadmin, hdrop40⟩

theorem lockAccount_encode_slices {l : LockAccount}
    (ho : l.owner.length = 32) (hm : l.mint.length = 32) :
    (getLockAccountEncoder l).take 8 = LOCK_DISCRIMINATOR ∧
    ((getLockAccountEncoder l).drop 8).take 32 = l.owner ∧
    ((getLockAccountEncoder l).drop 40).take 32 = l.mint ∧
    ((getLockAccountEncoder l).drop 72).take 8 = bytesLE 8 l.amount ∧
    ((getLockAccountEncoder l).drop 80).take 8 = i64LE l.unlockTimestamp ∧
    ((getLockAccountEncoder l).drop 88).take 8 = i64LE l.createdAt ∧
    ((getLockAccountEncoder l).drop 96).take 8 = bytesLE 8 l.lockId ∧
    (getLockAccountEncoder l).drop 104 = [l.bump] := by
  obtain ⟨d, ow, mi, am, ts, ca, li, bp⟩ := l
  simp only at ho hm
  have henc : getLockAccountEncoder ⟨d, ow, mi, am, ts, ca, li, bp⟩
      = LOCK_DISCRIMINATOR ++
          (ow ++ (mi ++ (bytesLE 8 am ++ (i64LE ts ++ (i64LE ca ++ (bytesLE 8 li ++ [bp]))))))
      := by simp [getLockAccountEncoder, List.append_assoc]
  have hdisc : (getLockAccountEncoder ⟨d, ow, mi, am, ts, ca, li, bp⟩).take 8
      = LOCK_DISCRIMINATOR := by rw [henc]; exact List.take_left' rfl
  have hdrop8 : (getLockAccountEncoder ⟨d, ow, mi, am, ts, ca, li, bp⟩).drop 8
      = ow ++ (mi ++ (bytesLE 8 am ++ (i64LE ts ++ (i64LE ca ++ (bytesLE 8 li ++ [bp])))))
      := by rw [henc]; exact List.drop_left' rfl
  have howner : ((getLockAccountEncoder ⟨d, ow, mi, am, ts, ca, li, bp⟩).drop 8).take 32
      = ow := by rw [hdrop8]; exact List.take_left' ho
  have hdrop40 : (getLockAccountEncoder ⟨d, ow, mi, am, ts, ca, li, bp⟩).drop 40
      = mi ++ (bytesLE 8 am ++ (i64LE ts ++ (i64LE ca ++ (bytesLE 8 li ++ [bp])))) := by
    rw [← List.drop_drop 32 8, hdrop8, List.drop_left' ho]
  have hmint : ((getLockAccountEncoder ⟨d, ow, mi, am, ts, ca, li, bp⟩).drop 40).take 32
      = mi := by rw [hdrop40]; exact List.take_left' hm
  have hdrop72 : (getLockAccountEncoder ⟨d, ow, mi, am, ts, ca, li, bp⟩).drop 72
      = bytesLE 8 am ++ (i64LE ts ++ (i64LE ca ++ (bytesLE 8 li ++ [bp]))) := by
    rw [← List.drop_drop 32 40, hdrop40, List.drop_left' hm]
  have hamount : ((getLockAccountEncoder ⟨d, ow, mi, am, ts, ca, li, bp⟩).drop 72).take 8
      = bytesLE 8 am := by rw [hdrop72]; exact List.take_left' (bytesLE_length 8 am)
  have hdrop80 : (getLockAccountEncoder ⟨d, ow, mi, am, ts, ca, li, bp⟩).drop 80
      = i64LE ts ++ (i64LE ca ++ (bytesLE 8 li ++ [bp])) := by
    rw [← List.drop_drop 8 72, hdrop72, List.drop_left' (bytesLE_length 8 am)]
  have hts : ((getLockAccountEncoder ⟨d, ow, mi, am, ts, ca, li, bp⟩).drop 80).take 8
      = i64LE ts := by rw [hdrop80]; exact List.take_left' (i64LE_length ts)
  have hdrop88 : (getLockAccountEncoder ⟨d, ow, mi, am, ts, ca, li, bp⟩).drop 88
      = i64LE ca ++ (bytesLE 8 li ++ [bp]) := by
    rw [← List.drop_drop 8 80, hdrop80, List.drop_left' (i64LE_length ts)]
  have hca : ((getLockAccountEncoder ⟨d, ow, mi, am, ts, ca, li, bp⟩).drop 88).take 8
      = i64LE ca := by rw [hdrop88]; exact List.take_left' (i64LE_length ca)
  have hdrop96 : (getLockAccountEncoder ⟨d, ow, mi, am, ts, ca, li, bp⟩).drop 96
      = bytesLE 8 li ++ [bp] := by
    rw [← List.drop_drop 8 88, hdrop88, List.drop_left' (i64LE_length ca)]
  have hli : ((getLockAccountEncoder ⟨d, ow, mi, am, ts, ca, li, bp⟩).drop 96).take 8
      = bytesLE 8 li := by rw [hdrop96]; exact List.take_left' (bytesLE_length 8 li)
  have hdrop104 : (getLockAccountEncoder ⟨d, ow, mi, am, ts, ca, li, bp⟩).drop 104
      = [bp] := by
    rw [← List.drop_drop 8 96, hdrop96, List.drop_left' (bytesLE_length 8 li)]
  exact ⟨hdisc, howner, hmint, hamount, hts, hca, hli, hdrop104⟩

/-! ## Claims -/

/-- C1: Codec round-trip — for every valid value of every instruction and
account record type (boundary integers included), decoding an encoding
yields the value back, for the instruction-data and account
encoder/decoder pairs. -/
theorem claim_C1_codec_roundtrip
    (a : InitializeLockInstructionData) (u : UnlockInstructionData)
    (c : ConfigAccount) (l : LockAccount) :
    (a.Valid → getInitializeLockInstructionDataDecoder
        (getInitializeLockInstructionDataEncoder a) = .ok a) ∧
    (u.Valid → getUnlockInstructionDataDecoder
        (getUnlockInstructionDataEncoder u) = .ok u) ∧
    getInitializeConfigInstructionDataDecoder
        getInitializeConfigInstructionDataEncoder = .ok () ∧
    getTransferAdminInstructionDataDecoder
        getTransferAdminInstructionDataEncoder = .ok () ∧
    getWithdrawFeesInstructionDataDecoder
        getWithdrawFeesInstructionDataEncoder = .ok () ∧
    (c.Valid → getConfigAccountDecoder (getConfigAccountEncoder c) = .ok c) ∧
    (l.Valid → getLockAccountDecoder (getLockAccountEncoder l) = .ok l) :=
  ⟨fun h => initializeLock_roundtrip h, fun h => unlock_roundtrip h,
   initializeConfig_roundtrip, transferAdmin_roundtrip, withdrawFees_roundtrip,
   fun h => configAccount_roundtrip h, fun h => lockAccount_roundtrip h⟩

/-- Witness for C1 at boundary values: max-u64 amount with min-i64
timestamp, zero fields with max-i64 timestamp and max-u64 lockId, and
account records with boundary integer fields. -/
theorem claim_C1_codec_roundtrip_witness :
    (InitializeLockInstructionData.Valid
        ⟨18446744073709551615, -9223372036854775808, 0⟩ ∧
      getInitializeLockInstructionDataDecoder (getInitializeLockInstructionDataEncoder
          ⟨18446744073709551615, -9223372036854775808, 0⟩)
        = .ok ⟨18446744073709551615, -9223372036854775808, 0⟩) ∧
    (InitializeLockInstructionData.Valid ⟨0, 9223372036854775807, 18446744073709551615⟩ ∧
      getInitializeLockInstructionDataDecoder (getInitializeLockInstructionDataEncoder
          ⟨0, 9223372036854775807, 18446744073709551615⟩)
        = .ok ⟨0, 9223372036854775807, 18446744073709551615⟩) ∧
    (UnlockInstructionData.Valid ⟨18446744073709551615⟩ ∧
      getUnlockInstructionDataDecoder (getUnlockInstructionDataEncoder
          ⟨18446744073709551615⟩) = .ok ⟨18446744073709551615⟩) ∧
    (ConfigAccount.Valid ⟨CONFIG_DISCRIMINATOR, List.replicate 32 7, 255⟩ ∧
      getConfigAccountDecoder (getConfigAccountEncoder
          ⟨CONFIG_DISCRIMINATOR, List.replicate 32 7, 255⟩)
        = .ok ⟨CONFIG_DISCRIMINATOR, List.replicate 32 7, 255⟩) ∧
    (LockAccount.Valid ⟨LOCK_DISCRIMINATOR, List.replicate 32 1, List.replicate 32 2,
        18446744073709551615, 9223372036854775807, -9223372036854775808, 42, 254⟩ ∧
      getLockAccountDecoder (getLockAccountEncoder
          ⟨LOCK_DISCRIMINATOR, List.replicate 32 1, List.replicate 32 2,
            18446744073709551615, 9223372036854775807, -9223372036854775808, 42, 254⟩)
        = .ok ⟨LOCK_DISCRIMINATOR, List.replicate 32 1, List.replicate 32 2,
            18446744073709551615, 9223372036854775807, -9223372036854775808, 42, 254⟩) :=
  ⟨⟨by decide,
    (claim_C1_codec_roundtrip ⟨18446744073709551615, -9223372036854775808, 0⟩
      ⟨0⟩ ⟨CONFIG_DISCRIMINATOR, [], 0⟩
      ⟨LOCK_DISCRIMINATOR, [], [], 0, 0, 0, 0, 0⟩).1 (by decide)⟩,
   ⟨by decide,
    (claim_C1_codec_roundtrip ⟨0, 9223372036854775807, 18446744073709551615⟩
      ⟨0⟩ ⟨CONFIG_DISCRIMINATOR, [], 0⟩
      ⟨LOCK_DISCRIMINATOR, [], [], 0, 0, 0, 0, 0⟩).1 (by decide)⟩,
   ⟨by decide,
    (claim_C1_codec_roundtrip ⟨0, 0, 0⟩ ⟨18446744073709551615⟩
      ⟨CONFIG_DISCRIMINATOR, [], 0⟩
      ⟨LOCK_DISCRIMINATOR, [], [], 0, 0, 0, 0, 0⟩).2.1 (by decide)⟩,
   ⟨by decide,
    (claim_C1_codec_roundtrip ⟨0, 0, 0⟩ ⟨0⟩
      ⟨CONFIG_DISCRIMINATOR, List.replicate 32 7, 255⟩
      ⟨LOCK_DISCRIMINATOR, [], [], 0, 0, 0, 0, 0⟩).2.2.2.2.2.1 (by decide)⟩,
   ⟨by decide,
    (claim_C1_codec_roundtrip ⟨0, 0, 0⟩ ⟨0⟩ ⟨CONFIG_DISCRIMINATOR, [], 0⟩
      ⟨LOCK_DISCRIMINATOR, List.replicate 32 1, List.replicate 32 2,
        18446744073709551615, 9223372036854775807, -9223372036854775808, 42, 254⟩
      ).2.2.2.2.2.2 (by decide)⟩⟩

/-- C2: Instruction wire format — the encoded InitializeLock instruction
data is exactly 25 bytes, tag byte 3 then amount, unlockTimestamp and
lockId as 8 little-endian bytes each in that order; the encoded Unlock
data is exactly 9 bytes, tag byte 4 then lockId as 8 little-endian bytes;
InitializeConfig, TransferAdmin and WithdrawFees encode as tag bytes 0, 1
and 2 with empty payloads. -/
theorem claim_C2_instruction_wire_format
    (d : InitializeLockInstructionData) (u : UnlockInstructionData) :
    ((getInitializeLockInstructionDataEncoder d).length = 25 ∧
     (getInitializeLockInstructionDataEncoder d).take 1 = [3] ∧
     ((getInitializeLockInstructionDataEncoder d).drop 1).take 8
       = bytesLE 8 d.amount ∧
     ((getInitializeLockInstructionDataEncoder d).drop 9).take 8
       = i64LE d.unlockTimestamp ∧
     (getInitializeLockInstructionDataEncoder d).drop 17 = bytesLE 8 d.lockId) ∧
    ((getUnlockInstructionDataEncoder u).length = 9 ∧
     (getUnlockInstructionDataEncoder u).take 1 = [4] ∧
     (getUnlockInstructionDataEncoder u).drop 1 = bytesLE 8 u.lockId) ∧
    getInitializeConfigInstructionDataEncoder = [0] ∧
    getTransferAdminInstructionDataEncoder = [1] ∧
    getWithdrawFeesInstructionDataEncoder = [2] := by
  obtain ⟨hd1, hd2, hd3, hd4⟩ := initializeLock_encode_slices d
  obtain ⟨hu1, hu2⟩ := unlock_encode_slices u
  exact ⟨⟨initializeLock_encode_length d, hd1, hd2, hd3, hd4⟩,
         ⟨unlock_encode_length u, hu1, hu2⟩, rfl, rfl, rfl⟩

/-- C3: Account record layout — the encoded ConfigAccount is exactly 41
bytes with discriminator bytes [67,79,78,70,73,71,0,0] at offset 0, the
32-byte admin at offset 8 and the bump byte at offset 40; the encoded
LockAccount is exactly 105 bytes with discriminator bytes
[76,79,67,75,0,0,0,0] at offset 0, owner at 8, mint at 40, amount (u64 LE)
at 72, unlockTimestamp (i64 LE) at 80, createdAt (i64 LE) at 88, lockId
(u64 LE) at 96 and the bump byte at offset 104. -/
theorem claim_C3_account_record_layout (c : ConfigAccount) (l : LockAccount)
    (hc : c.admin.length = 32) (ho : l.owner.length = 32) (hm : l.mint.length = 32) :
    ((getConfigAccountEncoder c).length = 41 ∧
     (getConfigAccountEncoder c).take 8 = [67, 79, 78, 70, 73, 71, 0, 0] ∧
     ((getConfigAccountEncoder c).drop 8).take 32 = c.admin ∧
     (getConfigAccountEncoder c).drop 40 = [c.bump]) ∧
    ((getLockAccountEncoder l).length = 105 ∧
     (getLockAccountEncoder l).take 8 = [76, 79, 67, 75, 0, 0, 0, 0] ∧
     ((getLockAccountEncoder l).drop 8).take 32 = l.owner ∧
     ((getLockAccountEncoder l).drop 40).take 32 = l.mint ∧
     ((getLockAccountEncoder l).drop 72).take 8 = bytesLE 8 l.amount ∧
     ((getLockAccountEncoder l).drop 80).take 8 = i64LE l.unlockTimestamp ∧
     ((getLockAccountEncoder l).drop 88).take 8 = i64LE l.createdAt ∧
     ((getLockAccountEncoder l).drop 96).take 8 = bytesLE 8 l.lockId ∧
     (getLockAccountEncoder l).drop 104 = [l.bump]) := by
  obtain ⟨hc1, hc2, hc3⟩ := configAccount_encode_slices hc
  obtain ⟨hl1, hl2, hl3, hl4, hl5, hl6, hl7, hl8⟩ := lockAccount_encode_slices ho hm
  exact ⟨⟨configAccount_encode_length hc, hc1, hc2, hc3⟩,
         ⟨lockAccount_encode_length ho hm, hl1, hl2, hl3, hl4, hl5, hl6, hl7, hl8⟩⟩

/-- Witness for C3 at concrete account values with 32-byte admin, owner
and mint. -/
theorem claim_C3_account_record_layout_witness :
    (List.replicate 32 7 : List Nat).length = 32 ∧
    (getConfigAccountEncoder ⟨CONFIG_DISCRIMINATOR, List.replicate 32 7, 200⟩).length
      = 41 ∧
    (getLockAccountEncoder ⟨LOCK_DISCRIMINATOR, List.replicate 32 1,
        List.replicate 32 2, 5, 10, 3, 42, 250⟩).length = 105 :=
  ⟨by decide,
   (claim_C3_account_record_layout ⟨CONFIG_DISCRIMINATOR, List.replicate 32 7, 200⟩
      ⟨LOCK_DISCRIMINATOR, List.replicate 32 1, List.replicate 32 2, 5, 10, 3, 42, 250⟩
      (by decide) (by decide) (by decide)).1.1,
   (claim_C3_account_record_layout ⟨CONFIG_DISCRIMINATOR, List.replicate 32 7, 200⟩
      ⟨LOCK_DISCRIMINATOR, List.replicate 32 1, List.replicate 32 2, 5, 10, 3, 42, 250⟩
      (by decide) (by decide) (by decide)).2.1⟩

/-- C4: Decode failure conditions — every decoder fails with a
length-mismatch error whenever the buffer is not exactly the expected
fixed size, and with a discriminator-mismatch error whenever the buffer
has the right size but its leading tag/discriminator differs from the
expected constant, for ConfigAccount, LockAccount and each instruction. -/
theorem claim_C4_decode_failures (b : List Nat) :
    ((b.length ≠ 41 → getConfigAccountDecoder b = .error .lengthMismatch) ∧
     (b.length = 41 → b.take 8 ≠ CONFIG_DISCRIMINATOR →
       getConfigAccountDecoder b = .error .discriminatorMismatch)) ∧
    ((b.length ≠ 105 → getLockAccountDecoder b = .error .lengthMismatch) ∧
     (b.length = 105 → b.take 8 ≠ LOCK_DISCRIMINATOR →
       getLockAccountDecoder b = .error .discriminatorMismatch)) ∧
    ((b.length ≠ 25 →
       getInitializeLockInstructionDataDecoder b = .error .lengthMismatch) ∧
     (b.length = 25 → b.take 1 ≠ [3] →
       getInitializeLockInstructionDataDecoder b = .error .discriminatorMismatch)) ∧
    ((b.length ≠ 9 → getUnlockInstructionDataDecoder b = .error .lengthMismatch) ∧
     (b.length = 9 → b.take 1 ≠ [4] →
       getUnlockInstructionDataDecoder b = .error .discriminatorMismatch)) ∧
    ((b.length ≠ 1 →
       getInitializeConfigInstructionDataDecoder b = .error .lengthMismatch) ∧
     (b.length = 1 → b.take 1 ≠ [0] →
       getInitializeConfigInstructionDataDecoder b = .error .discriminatorMismatch)) ∧
    ((b.length ≠ 1 →
       getTransferAdminInstructionDataDecoder b = .error .lengthMismatch) ∧
     (b.length = 1 → b.take 1 ≠ [1] →
       getTransferAdminInstructionDataDecoder b = .error .discriminatorMismatch)) ∧
    ((b.length ≠ 1 → getWithdrawFeesInstructionDataDecoder b = .error .lengthMismatch) ∧
     (b.length = 1 → b.take 1 ≠ [2] →
       getWithdrawFeesInstructionDataDecoder b = .error .discriminatorMismatch)) := by
  refine ⟨⟨fun h => ?_, fun h1 h2 => ?_⟩, ⟨fun h => ?_, fun h1 h2 => ?_⟩,
          ⟨fun h => ?_, fun h1 h2 => ?_⟩, ⟨fun h => ?_, fun h1 h2 => ?_⟩,
          ⟨fun h => ?_, fun h1 h2 => ?_⟩, ⟨fun h => ?_, fun h1 h2 => ?_⟩,
          ⟨fun h => ?_, fun h1 h2 => ?_⟩⟩
  · unfold getConfigAccountDecoder
    rw [if_pos (by simpa [getConfigAccountSize] using h)]
  · unfold getConfigAccountDecoder
    rw [if_neg (by simp [getConfigAccountSize, h1]), if_pos h2]
  · unfold getLockAccountDecoder
    rw [if_pos (by simpa [getLockAccountSize] using h)]
  · unfold getLockAccountDecoder
    rw [if_neg (by simp [getLockAccountSize, h1]), if_pos h2]
  · unfold getInitializeLockInstructionDataDecoder
    rw [if_pos h]
  · unfold getInitializeLockInstructionDataDecoder
    rw [if_neg (by simp [h1]),
        if_pos (by simpa [INITIALIZE_LOCK_DISCRIMINATOR] using h2)]
  · unfold getUnlockInstructionDataDecoder
    rw [if_pos h]
  · unfold getUnlockInstructionDataDecoder
    rw [if_neg (by simp [h1]), if_pos (by simpa [UNLOCK_DISCRIMINATOR] using h2)]
  · unfold getInitializeConfigInstructionDataDecoder
    rw [if_pos h]
  · unfold getInitializeConfigInstructionDataDecoder
    rw [if_neg (by simp [h1]),
        if_pos (by simpa [INITIALIZE_CONFIG_DISCRIMINATOR] using h2)]
  · unfold getTransferAdminInstructionDataDecoder
    rw [if_pos h]
  · unfold getTransferAdminInstructionDataDecoder
    rw [if_neg (by simp [h1]), if_pos (by simpa [TRANSFER_ADMIN_DISCRIMINATOR] using h2)]
  · unfold getWithdrawFeesInstructionDataDecoder
    rw [if_pos h]
  · unfold getWithdrawFeesInstructionDataDecoder
    rw [if_neg (by simp [h1]), if_pos (by simpa [WITHDRAW_FEES_DISCRIMINATOR] using h2)]

/-- Witness for C4: the empty buffer fails every decoder with a length
mismatch, and right-sized zero-filled (or wrong-tag) buffers fail each
decoder with a discriminator mismatch. -/
theorem claim_C4_decode_failures_witness :
    getConfigAccountDecoder [] = .error .lengthMismatch ∧
    getConfigAccountDecoder (List.replicate 41 0) = .error .discriminatorMismatch ∧
    getLockAccountDecoder [] = .error .lengthMismatch ∧
    getLockAccountDecoder (List.replicate 105 0) = .error .discriminatorMismatch ∧
    getInitializeLockInstructionDataDecoder [] = .error .lengthMismatch ∧
    getInitializeLockInstructionDataDecoder (List.replicate 25 0)
      = .error .discriminatorMismatch ∧
    getUnlockInstructionDataDecoder [] = .error .lengthMismatch ∧
    getUnlockInstructionDataDecoder (List.replicate 9 0)
      = .error .discriminatorMismatch ∧
    getInitializeConfigInstructionDataDecoder [] = .error .lengthMismatch ∧
    getInitializeConfigInstructionDataDecoder [7] = .error .discriminatorMismatch ∧
    getTransferAdminInstructionDataDecoder [] = .error .lengthMismatch ∧
    getTransferAdminInstructionDataDecoder [0] = .error .discriminatorMismatch ∧
    getWithdrawFeesInstructionDataDecoder [] = .error .lengthMismatch ∧
    getWithdrawFeesInstructionDataDecoder [0] = .error .discriminatorMismatch :=
  ⟨(claim_C4_decode_failures []).1.1 (by decide),
   (claim_C4_decode_failures (List.replicate 41 0)).1.2 (by decide) (by decide),
   (claim_C4_decode_failures []).2.1.1 (by decide),
   (claim_C4_decode_failures (List.replicate 105 0)).2.1.2 (by decide) (by decide),
   (claim_C4_decode_failures []).2.2.1.1 (by decide),
   (claim_C4_decode_failures (List.replicate 25 0)).2.2.1.2 (by decide) (by decide),
   (claim_C4_decode_failures []).2.2.2.1.1 (by decide),
   (claim_C4_decode_failures (List.replicate 9 0)).2.2.2.1.2 (by decide) (by decide),
   (claim_C4_decode_failures []).2.2.2.2.1.1 (by decide),
   (claim_C4_decode_failures [7]).2.2.2.2.1.2 (by decide) (by decide),
   (claim_C4_decode_failures []).2.2.2.2.2.1.1 (by decide),
   (claim_C4_decode_failures [0]).2.2.2.2.2.1.2 (by decide) (by decide),
   (claim_C4_decode_failures []).2.2.2.2.2.2.1 (by decide),
   (claim_C4_decode_failures [0]).2.2.2.2.2.2.2 (by decide) (by decide)⟩

/-- C5 counterexample: at concrete account addresses, the WithdrawFees
instruction does not carry exactly four accounts — its account list has
length 5, as the SDK's own instruction test asserts. -/
theorem claim_C5_counterexample :
    ¬ (getWithdrawFeesInstruction (List.replicate 32 1) (List.replicate 32 2)
        (List.replicate 32 3) (List.replicate 32 4)).accounts.length = 4 := by
  simp [getWithdrawFeesInstruction]

/-- C5 (amended): a WithdrawFees instruction has tag byte 2, an empty
payload, and carries exactly five ordered accounts — admin (signer),
config, feeVault, destination, and the token-ledger program account. -/
theorem claim_C5_withdraw_fees_shape (admin config feeVault destination : List Nat) :
    (getWithdrawFeesInstruction admin config feeVault destination).data = [2] ∧
    (getWithdrawFeesInstruction admin config feeVault destination).accounts
      = [admin, config, feeVault, destination, TOKEN_PROGRAM_ADDRESS] :=
  ⟨rfl, rfl⟩

/-- C6: PDA seed table — findConfigPda derives from the single seed
"config", findFeeVaultPda from "fee_vault", findLockAccountPda from
["lock", owner bytes, mint bytes, lockId as 8 little-endian bytes] in
that order, and findLockTokenPda from ["lock_token", lockAccount address
bytes], all under the locksmith program address. -/
theorem claim_C6_pda_seed_table (owner mint lockAccount : List Nat) (lockId : Nat) :
    findConfigPda LOCKSMITH_PROGRAM_ADDRESS
      = getProgramDerivedAddress LOCKSMITH_PROGRAM_ADDRESS
          [[99, 111, 110, 102, 105, 103]] ∧
    findFeeVaultPda LOCKSMITH_PROGRAM_ADDRESS
      = getProgramDerivedAddress LOCKSMITH_PROGRAM_ADDRESS
          [[102, 101, 101, 95, 118, 97, 117, 108, 116]] ∧
    findLockAccountPda owner mint (.big lockId) LOCKSMITH_PROGRAM_ADDRESS
      = getProgramDerivedAddress LOCKSMITH_PROGRAM_ADDRESS
          [[108, 111, 99, 107], owner, mint, bytesLE 8 lockId] ∧
    findLockTokenPda lockAccount LOCKSMITH_PROGRAM_ADDRESS
      = getProgramDerivedAddress LOCKSMITH_PROGRAM_ADDRESS
          [[108, 111, 99, 107, 95, 116, 111, 107, 101, 110], lockAccount] := by
  refine ⟨?_, ?_, ?_, ?_⟩
  · rw [findConfigPda, CONFIG_SEED_bytes]
  · rw [findFeeVaultPda, FEE_VAULT_SEED_bytes]
  · rw [findLockAccountPda, LOCK_SEED_bytes]
    simp [getAddressEncoder, JsIntArg.toBigInt]
  · rw [findLockTokenPda, LOCK_TOKEN_SEED_bytes, getAddressEncoder]

/-- C7: Derivation determinism and distinctness — derivation is a pure
function of the seeds (two calls with identical seeds agree), the bump is
in 0–255, and for lock-account derivation, changing any one of owner,
mint or lockId while fixing the others yields different addresses. -/
theorem claim_C7_derivation_determinism_distinctness
    (prog owner owner2 mint mint2 : List Nat) (seeds : List (List Nat))
    (id id2 : Nat) :
    getProgramDerivedAddress prog seeds = getProgramDerivedAddress prog seeds ∧
    (findLockAccountPda owner mint (.big id) prog).2 ≤ 255 ∧
    (owner.length = 32 → owner2.length = 32 → owner ≠ owner2 →
      (findLockAccountPda owner mint (.big id) prog).1
        ≠ (findLockAccountPda owner2 mint (.big id) prog).1) ∧
    (mint.length = 32 → mint2.length = 32 → mint ≠ mint2 →
      (findLockAccountPda owner mint (.big id) prog).1
        ≠ (findLockAccountPda owner mint2 (.big id) prog).1) ∧
    (id < 2 ^ 64 → id2 < 2 ^ 64 → id ≠ id2 →
      (findLockAccountPda owner mint (.big id) prog).1
        ≠ (findLockAccountPda owner mint (.big id2) prog).1) :=
  ⟨rfl, Nat.le_refl 255,
   fun h1 h2 hne => lockPda_ne_of_owner_ne mint id prog h1 h2 hne,
   fun h1 h2 hne => lockPda_ne_of_mint_ne owner id prog h1 h2 hne,
   fun h1 h2 hne => lockPda_ne_of_id_ne owner mint prog h1 h2 hne⟩

/-- Witness for C7 at concrete 32-byte owners and mints and lock ids 0
and 1, under the locksmith program address. -/
theorem claim_C7_derivation_determinism_distinctness_witness :
    (findLockAccountPda (List.replicate 32 1) (List.replicate 32 3)
        (.big 0) LOCKSMITH_PROGRAM_ADDRESS).1
      ≠ (findLockAccountPda (List.replicate 32 2) (List.replicate 32 3)
          (.big 0) LOCKSMITH_PROGRAM_ADDRESS).1 ∧
    (findLockAccountPda (List.replicate 32 1) (List.replicate 32 3)
        (.big 0) LOCKSMITH_PROGRAM_ADDRESS).1
      ≠ (findLockAccountPda (List.replicate 32 1) (List.replicate 32 4)
          (.big 0) LOCKSMITH_PROGRAM_ADDRESS).1 ∧
    (findLockAccountPda (List.replicate 32 1) (List.replicate 32 3)
        (.big 0) LOCKSMITH_PROGRAM_ADDRESS).1
      ≠ (findLockAccountPda (List.replicate 32 1) (List.replicate 32 3)
          (.big 1) LOCKSMITH_PROGRAM_ADDRESS).1 :=
  ⟨(claim_C7_derivation_determinism_distinctness LOCKSMITH_PROGRAM_ADDRESS
      (List.replicate 32 1) (List.replicate 32 2) (List.replicate 32 3)
      (List.replicate 32 4) [] 0 1).2.2.1 (by decide) (by decide) (by decide),
   (claim_C7_derivation_determinism_distinctness LOCKSMITH_PROGRAM_ADDRESS
      (List.replicate 32 1) (List.replicate 32 2) (List.replicate 32 3)
      (List.replicate 32 4) [] 0 1).2.2.2.1 (by decide) (by decide) (by decide),
   (claim_C7_derivation_determinism_distinctness LOCKSMITH_PROGRAM_ADDRESS
      (List.replicate 32 1) (List.replicate 32 2) (List.replicate 32 3)
      (List.replicate 32 4) [] 0 1).2.2.2.2 (by decide) (by decide) (by decide)⟩

/-- C8: Protocol constants — USDC_MINT is the hardcoded devnet USDC
address constant, FEE_USDC equals 150000, and MAX_LOCK_DURATION_SECONDS
equals 315360000, which is exactly 10*365*24*60*60. -/
theorem claim_C8_protocol_constants :
    USDC_MINT = "4zMMC9srt5Ri5X14GAgXhaHii3GnPAEERYPJgZJDncDU" ∧
    FEE_USDC = 150000 ∧
    MAX_LOCK_DURATION_SECONDS = 315360000 ∧
    MAX_LOCK_DURATION_SECONDS = 10 * 365 * 24 * 60 * 60 :=
  ⟨rfl, rfl, by norm_num [MAX_LOCK_DURATION_SECONDS], rfl⟩

/-- C9: Account decoding performs no semantic validation — every 105-byte
buffer carrying the LOCK discriminator decodes successfully into the
verbatim field values, and every well-shaped LockAccount value round-trips
through the codec even when it violates the documented lock invariants
(zero amount, negative or min-i64 unlockTimestamp, unlockTimestamp not
greater than createdAt). -/
theorem claim_C9_decoder_no_semantic_validation (b : List Nat) (l : LockAccount) :
    (b.length = 105 → b.take 8 = LOCK_DISCRIMINATOR →
      getLockAccountDecoder b
        = .ok { discriminator := b.take 8,
                owner := (b.drop 8).take 32,
                mint := (b.drop 40).take 32,
                amount := readLE ((b.drop 72).take 8),
                unlockTimestamp := readI64LE ((b.drop 80).take 8),
                createdAt := readI64LE ((b.drop 88).take 8),
                lockId := readLE ((b.drop 96).take 8),
                bump := (b.drop 104).headD 0 }) ∧
    (l.Valid → getLockAccountDecoder (getLockAccountEncoder l) = .ok l) := by
  constructor
  · intro h1 h2
    unfold getLockAccountDecoder
    rw [if_neg (by simp [getLockAccountSize, h1]), if_neg (by simp [h2])]
  · exact fun h => lockAccount_roundtrip h

/-- Witness for C9: a zero-filled 105-byte LOCK buffer decodes
successfully, and a LockAccount with amount 0, min-i64 unlockTimestamp
and createdAt greater than unlockTimestamp round-trips unchanged. -/
theorem claim_C9_decoder_no_semantic_validation_witness :
    (getLockAccountDecoder (LOCK_DISCRIMINATOR ++ List.replicate 97 0)).isOk ∧
    LockAccount.Valid ⟨LOCK_DISCRIMINATOR, List.replicate 32 0, List.replicate 32 0,
        0, -9223372036854775808, 5, 0, 0⟩ ∧
    getLockAccountDecoder (getLockAccountEncoder
        ⟨LOCK_DISCRIMINATOR, List.replicate 32 0, List.replicate 32 0,
          0, -9223372036854775808, 5, 0, 0⟩)
      = .ok ⟨LOCK_DISCRIMINATOR, List.replicate 32 0, List.replicate 32 0,
          0, -9223372036854775808, 5, 0, 0⟩ := by
  refine ⟨?_, by decide, ?_⟩
  · have h := (claim_C9_decoder_no_semantic_validation
        (LOCK_DISCRIMINATOR ++ List.replicate 97 0)
        ⟨LOCK_DISCRIMINATOR, [], [], 0, 0, 0, 0, 0⟩).1 (by decide) (by decide)
    rw [h]
    rfl
  · exact (claim_C9_decoder_no_semantic_validation []
        ⟨LOCK_DISCRIMINATOR, List.replicate 32 0, List.replicate 32 0,
          0, -9223372036854775808, 5, 0, 0⟩).2 (by decide)

/-- C10: Numeric-representation equivalence at the public interface — for
integer values exactly representable as JavaScript numbers,
getInitializeLockInstruction builds the identical instruction and
findLockAccountPda the identical (address, bump) pair whether the
amount/unlockTimestamp/lockId arguments are passed as numbers or as
bigints. -/
theorem claim_C10_number_bigint_equivalence
    (o ota oua m la lta fv owner mint prog : List Nat) (v1 v2 v3 : Int)
    (x1 x2 x3 : JsNumber)
    (h1 : jsExactInt v1 x1) (h2 : jsExactInt v2 x2) (h3 : jsExactInt v3 x3) :
    getInitializeLockInstruction o ota oua m la lta fv (.num x1) (.num x2) (.num x3)
      = getInitializeLockInstruction o ota oua m la lta fv (.big v1) (.big v2)
          (.big v3) ∧
    findLockAccountPda owner mint (.num x3) prog
      = findLockAccountPda owner mint (.big v3) prog := by
  obtain ⟨-, h1⟩ := h1
  obtain ⟨-, h2⟩ := h2
  obtain ⟨-, h3⟩ := h3
  constructor
  · simp [getInitializeLockInstruction, JsIntArg.toBigInt, ← h1, ← h2, ← h3]
  · simp [findLockAccountPda, JsIntArg.toBigInt, ← h3]

/-- Witness for C10 at the values of the SDK tests (amount 1000000,
unlockTimestamp 1700000000, lockId 42), passing exact binary-float
representations on the number side. -/
theorem claim_C10_number_bigint_equivalence_witness :
    getInitializeLockInstruction (List.replicate 32 1) (List.replicate 32 2)
        (List.replicate 32 3) (List.replicate 32 4) (List.replicate 32 5)
        (List.replicate 32 6) (List.replicate 32 7)
        (.num ⟨1000000, 0⟩) (.num ⟨850000000, 1⟩) (.num ⟨21, 1⟩)
      = getInitializeLockInstruction (List.replicate 32 1) (List.replicate 32 2)
          (List.replicate 32 3) (List.replicate 32 4) (List.replicate 32 5)
          (List.replicate 32 6) (List.replicate 32 7)
          (.big 1000000) (.big 1700000000) (.big 42) ∧
    findLockAccountPda (List.replicate 32 1) (List.replicate 32 4)
        (.num ⟨21, 1⟩) LOCKSMITH_PROGRAM_ADDRESS
      = findLockAccountPda (List.replicate 32 1) (List.replicate 32 4)
          (.big 42) LOCKSMITH_PROGRAM_ADDRESS :=
  claim_C10_number_bigint_equivalence (List.replicate 32 1) (List.replicate 32 2)
    (List.replicate 32 3) (List.replicate 32 4) (List.replicate 32 5)
    (List.replicate 32 6) (List.replicate 32 7) (List.replicate 32 1)
    (List.replicate 32 4) LOCKSMITH_PROGRAM_ADDRESS 1000000 1700000000 42
    ⟨1000000, 0⟩ ⟨850000000, 1⟩ ⟨21, 1⟩ (by decide) (by decide) (by decide)

end Locksmith
